import Mathlib

/-!
Shallow embedding of the local-player worker of `spotify-tui`
(`src/player/commands.rs`, `src/player/events.rs`, `src/player/worker.rs`).

The worker owns a command receiver and an event sender, drives an external
streaming engine (librespot) and an OAuth/PKCE bootstrap flow.  External
effects (cache lookup, OAuth flow, session connect, audio backend / mixer
resolution) are modelled by an environment record of result-valued oracles;
every call into the external engine is recorded in an explicit call log so
that "pass-through" behaviour can be stated.  Machine integers (`u16`,
`u32`, `u64`) are modelled as `Nat`; none of the embedded operations can
overflow them.
-/

/-- `PlayerCommand` from `src/player/commands.rs`: commands sent from the
main thread to the player worker thread. -/
inductive PlayerCommand where
  | Initialize (client_id : String) (redirect_port : Nat)
  | Load (uri : String) (start_playing : Bool) (position_ms : Nat)
  | Play
  | Pause
  | Stop
  | Seek (position_ms : Nat)
  | SetVolume (volume : Nat)
  | Preload (uri : String)
  | Shutdown
deriving DecidableEq

/-- `PlayerEvent` from `src/player/events.rs`: events sent from the player
worker thread to the main thread. -/
inductive PlayerEvent where
  | Initialized
  | InitializationFailed (message : String)
  | Playing (track_uri : String) (position_ms : Nat) (duration_ms : Nat)
  | Paused (track_uri : String) (position_ms : Nat)
  | Stopped
  | TrackEnded (track_uri : String)
  | Position (position_ms : Nat) (duration_ms : Nat)
  | VolumeChanged (volume : Nat)
  | TimeToPreloadNextTrack
  | Loading (track_uri : String)
  | Error (message : String)
  | SessionDisconnected
  | Shutdown
deriving DecidableEq

/-- `Bitrate` of the external `librespot_playback::config` module (only its
three variants matter here; the worker stores it opaquely). -/
inductive Bitrate where
  | Bitrate96
  | Bitrate160
  | Bitrate320
deriving DecidableEq

/-- `PlayerWorkerConfig` from `src/player/worker.rs` (cache path as a plain
string in place of `PathBuf`). -/
structure PlayerWorkerConfig where
  audio_backend : Option String
  audio_device : Option String
  bitrate : Bitrate
  normalize_volume : Bool
  cache_path : Option String
  cache_size : Option Nat
deriving DecidableEq

/-- `impl Default for PlayerWorkerConfig`. -/
def PlayerWorkerConfig.default : PlayerWorkerConfig :=
  ⟨none, none, Bitrate.Bitrate320, true, none, some (1024 * 1024 * 1024)⟩

/-- Credentials returned by the OAuth flow or the credential cache
(`librespot_core::authentication::Credentials`, kept abstract: only the
token string matters to the embedding). -/
structure Credentials where
  access_token : String
deriving DecidableEq

/-- The mutable fields of `PlayerWorker` (`src/player/worker.rs`, lines
55-70): the two external handles are modelled as `Option Unit` since their
contents live inside the opaque engine; `current_volume` is the `u16`
volume. -/
structure PlayerWorkerState where
  session : Option Unit
  player : Option Unit
  config : PlayerWorkerConfig
  current_track_uri : Option String
  current_volume : Nat
deriving DecidableEq

/-- `PlayerWorker::new`: both handles `None`, no track, volume
`u16::MAX / 2 = 32767`. -/
def PlayerWorker.new (config : PlayerWorkerConfig) : PlayerWorkerState :=
  ⟨none, none, config, none, 32767⟩

/-- One entry of the external-effect call log: each constructor records one
call the worker makes into the OAuth bootstrapper or the engine. -/
inductive ExtCall where
  | oauthCall (client_id : String) (redirect_port : Nat) (redirect_path : String)
  | sessionConnect
  | findBackend (name : Option String)
  | findMixer
  | playerNew
  | playerLoad (track_id : String) (start_playing : Bool) (position_ms : Nat)
  | playerPlay
  | playerPause
  | playerStop
  | playerSeek (position_ms : Nat)
  | playerPreload (track_id : String)
deriving DecidableEq

/-- Environment of external-effect oracles: what the cache, the OAuth flow,
`Session::connect`, `audio_backend::find` and `mixer::find` would return.
Fixed for the duration of a run. -/
structure InitEnv where
  cacheOk : Bool
  cachedCredentials : Option Credentials
  oauth : String → Nat → String → Except String Credentials
  connect : Credentials → Except String Unit
  backendFind : Option String → Bool
  mixerFind : Bool

/-- The keymaster client id hard-coded in `PlayerWorker::initialize`
(`worker.rs` line 97). -/
def KEYMASTER_CLIENT_ID : String := "65b708073fc0480ea92a077233ca87bd"

/-- The redirect port hard-coded in `PlayerWorker::initialize`
(`worker.rs` line 98). -/
def KEYMASTER_REDIRECT_PORT : Nat := 8898

/-- The redirect path hard-coded in `PlayerWorker::initialize`
(`worker.rs` line 99). -/
def KEYMASTER_REDIRECT_PATH : String := "/login"

/-- Modelled from the spec: the external engine's track-URI parser
(`librespot_core::spotify_id::SpotifyId::from_uri`, not part of this
repository).  Per the spec it "accepts a URI string of the form
`service:track:<opaque-id>`; parse failure yields `InvalidUri` without
touching engine state".  The returned string is the opaque id. -/
def SpotifyId.from_uri (uri : String) : Except String String :=
  match (uri.data.splitOn ':' : List (List Char)) with
  | [service, _item_type, id] =>
    if service = "spotify".data ∧ id ≠ [] then Except.ok (String.mk id)
    else Except.error "InvalidUri"
  | _ => Except.error "InvalidUri"

/-- Credential acquisition phase of `PlayerWorker::initialize` (`worker.rs`
lines 104-152): set up the cache when a cache path is configured, use cached
credentials when present, otherwise run the OAuth flow — always with the
hard-coded keymaster client id, port and path. -/
def credsPhase (env : InitEnv) (cfg : PlayerWorkerConfig) :
    Except String Credentials × List ExtCall :=
  let cached : Option Credentials :=
    if cfg.cache_path.isSome && env.cacheOk then env.cachedCredentials else none
  match cached with
  | some creds => (Except.ok creds, [])
  | none =>
    (env.oauth KEYMASTER_CLIENT_ID KEYMASTER_REDIRECT_PORT KEYMASTER_REDIRECT_PATH,
     [ExtCall.oauthCall KEYMASTER_CLIENT_ID KEYMASTER_REDIRECT_PORT KEYMASTER_REDIRECT_PATH])

/-- `PlayerWorker::create_player` (`worker.rs` lines 365-420): resolve the
configured audio backend (error if not found), resolve the default mixer
(error if unavailable), then construct the player and store its handle. -/
def PlayerWorker.create_player (env : InitEnv) (s : PlayerWorkerState) :
    PlayerWorkerState × Except String Unit × List ExtCall :=
  let backend_name := s.config.audio_backend
  if env.backendFind backend_name then
    if env.mixerFind then
      ({ s with player := some () }, Except.ok (),
       [ExtCall.findBackend backend_name, ExtCall.findMixer, ExtCall.playerNew])
    else
      (s, Except.error "No mixer available",
       [ExtCall.findBackend backend_name, ExtCall.findMixer])
  else
    (s, Except.error ("Audio backend '" ++ backend_name.getD "default" ++ "' not found"),
     [ExtCall.findBackend backend_name])

/-- `PlayerWorker::initialize` (`worker.rs` lines 92-190).  The `client_id`
and `redirect_port` arguments are received but never used (the source names
them `_client_id` / `_redirect_port`).  On any failure the function returns
the error; note that `self.session` is assigned (line 184) *before*
`create_player` is attempted (line 187), so a `create_player` failure leaves
the session handle set. -/
def PlayerWorker.initWorker (env : InitEnv) (s : PlayerWorkerState)
    (_client_id : String) (_redirect_port : Nat) :
    PlayerWorkerState × Except String Unit × List ExtCall :=
  match credsPhase env s.config with
  | (Except.error e, calls) => (s, Except.error e, calls)
  | (Except.ok creds, calls) =>
    match env.connect creds with
    | Except.error e => (s, Except.error e, calls ++ [ExtCall.sessionConnect])
    | Except.ok _ =>
      let s1 := { s with session := some () }
      let r2 := PlayerWorker.create_player env s1
      (r2.1, r2.2.1, calls ++ [ExtCall.sessionConnect] ++ r2.2.2)

/-- `PlayerWorker::load_track` (`worker.rs` lines 585-607): parse the URI
first (failure yields an error without touching state), then require the
player handle; on success record the track URI and call `player.load`. -/
def PlayerWorker.load_track (s : PlayerWorkerState) (uri : String)
    (start_playing : Bool) (position_ms : Nat) :
    PlayerWorkerState × Except String Unit × List ExtCall :=
  match SpotifyId.from_uri uri with
  | Except.error e =>
    (s, Except.error ("Invalid Spotify URI '" ++ uri ++ "': " ++ e), [])
  | Except.ok track_id =>
    match s.player with
    | some _ =>
      ({ s with current_track_uri := some uri }, Except.ok (),
       [ExtCall.playerLoad track_id start_playing position_ms])
    | none => (s, Except.error "Player not initialized", [])

/-- `PlayerWorker::preload_track` (`worker.rs` lines 609-617): parse the URI
(failure propagates), then call `player.preload` if a player exists — a
missing player is *not* an error here. -/
def PlayerWorker.preload_track (s : PlayerWorkerState) (uri : String) :
    PlayerWorkerState × Except String Unit × List ExtCall :=
  match SpotifyId.from_uri uri with
  | Except.error e => (s, Except.error e, [])
  | Except.ok track_id =>
    match s.player with
    | some _ => (s, Except.ok (), [ExtCall.playerPreload track_id])
    | none => (s, Except.ok (), [])

instance {ε α : Type} [DecidableEq ε] [DecidableEq α] : DecidableEq (Except ε α) := fun x y =>
  match x, y with
  | Except.ok a, Except.ok b =>
    if h : a = b then isTrue (by rw [h]) else isFalse (by intro hc; cases hc; exact h rfl)
  | Except.ok _, Except.error _ => isFalse (by intro hc; cases hc)
  | Except.error _, Except.ok _ => isFalse (by intro hc; cases hc)
  | Except.error a, Except.error b =>
    if h : a = b then isTrue (by rw [h]) else isFalse (by intro hc; cases hc; exact h rfl)

/-- Result of one `handle_command` step: the new worker state, the
`Result<bool>` (`ok true` = shutdown requested, `error` = the error
propagated out of `handle_command` via `?`), the events sent on the event
channel, and the external calls made. -/
structure StepResult where
  state : PlayerWorkerState
  result : Except String Bool
  events : List PlayerEvent
  calls : List ExtCall
deriving DecidableEq

/-- `PlayerWorker::handle_command` (`worker.rs` lines 474-539), arm by arm.
`Initialize` and `Load` catch their errors and convert them to events;
`Preload` propagates its error with `?` (line 529); `Shutdown` returns
`Ok(true)`. -/
def PlayerWorker.handle_command (env : InitEnv) (s : PlayerWorkerState)
    (cmd : PlayerCommand) : StepResult :=
  match cmd with
  | PlayerCommand.Initialize client_id redirect_port =>
    let r := PlayerWorker.initWorker env s client_id redirect_port
    match r.2.1 with
    | Except.ok _ => ⟨r.1, Except.ok false, [PlayerEvent.Initialized], r.2.2⟩
    | Except.error e =>
      ⟨r.1, Except.ok false, [PlayerEvent.InitializationFailed e], r.2.2⟩
  | PlayerCommand.Load uri start_playing position_ms =>
    let r := PlayerWorker.load_track s uri start_playing position_ms
    match r.2.1 with
    | Except.ok _ => ⟨r.1, Except.ok false, [], r.2.2⟩
    | Except.error e =>
      ⟨r.1, Except.ok false, [PlayerEvent.Error ("Failed to load track: " ++ e)], r.2.2⟩
  | PlayerCommand.Play =>
    match s.player with
    | some _ => ⟨s, Except.ok false, [], [ExtCall.playerPlay]⟩
    | none => ⟨s, Except.ok false, [], []⟩
  | PlayerCommand.Pause =>
    match s.player with
    | some _ => ⟨s, Except.ok false, [], [ExtCall.playerPause]⟩
    | none => ⟨s, Except.ok false, [], []⟩
  | PlayerCommand.Stop =>
    ⟨{ s with current_track_uri := none }, Except.ok false, [],
     match s.player with
     | some _ => [ExtCall.playerStop]
     | none => []⟩
  | PlayerCommand.Seek position_ms =>
    match s.player with
    | some _ => ⟨s, Except.ok false, [], [ExtCall.playerSeek position_ms]⟩
    | none => ⟨s, Except.ok false, [], []⟩
  | PlayerCommand.SetVolume volume =>
    ⟨{ s with current_volume := volume }, Except.ok false,
     [PlayerEvent.VolumeChanged volume], []⟩
  | PlayerCommand.Preload uri =>
    let r := PlayerWorker.preload_track s uri
    match r.2.1 with
    | Except.ok _ => ⟨r.1, Except.ok false, [], r.2.2⟩
    | Except.error e => ⟨r.1, Except.error e, [], r.2.2⟩
  | PlayerCommand.Shutdown =>
    ⟨s, Except.ok true, [],
     match s.player with
     | some _ => [ExtCall.playerStop]
     | none => []⟩

/-- Result of the whole worker loop: final state, the `Result<()>` that
`run` returns, all events sent, all external calls made. -/
structure RunResult where
  state : PlayerWorkerState
  result : Except String Unit
  events : List PlayerEvent
  calls : List ExtCall
deriving DecidableEq

/-- `PlayerWorker::run` (`worker.rs` lines 423-472), restricted to the
command stream (the engine's own event stream is drained separately by
`handle_player_event`): the list of commands models everything the command
channel will ever deliver, its end modelling the `Disconnected` condition.
A `handle_command` error propagates out of the loop via `?` *before* the
final `Shutdown` event is sent; `Ok(true)` breaks the loop; `Disconnected`
breaks the loop; after a break the final `PlayerEvent::Shutdown` is sent. -/
def PlayerWorker.run (env : InitEnv) (s : PlayerWorkerState) :
    List PlayerCommand → RunResult
  | [] => ⟨s, Except.ok (), [PlayerEvent.Shutdown], []⟩
  | cmd :: rest =>
    let r := PlayerWorker.handle_command env s cmd
    match r.result with
    | Except.error e => ⟨r.state, Except.error e, r.events, r.calls⟩
    | Except.ok true =>
      ⟨r.state, Except.ok (), r.events ++ [PlayerEvent.Shutdown], r.calls⟩
    | Except.ok false =>
      let rr := PlayerWorker.run env r.state rest
      ⟨rr.state, rr.result, r.events ++ rr.events, r.calls ++ rr.calls⟩

/-- The engine-native player event enum
(`librespot_playback::player::PlayerEvent`), restricted to the variants the
worker matches on; every unmatched variant is collapsed into `OtherEvent`
(the `other =>` arm). -/
inductive LibrespotPlayerEvent where
  | Playing (play_request_id : Nat) (track_id : String) (position_ms : Nat)
  | Paused (play_request_id : Nat) (track_id : String) (position_ms : Nat)
  | Stopped (play_request_id : Nat) (track_id : String)
  | EndOfTrack (play_request_id : Nat) (track_id : String)
  | TimeToPreloadNextTrack (play_request_id : Nat) (track_id : String)
  | Loading (play_request_id : Nat) (track_id : String) (position_ms : Nat)
  | Unavailable (play_request_id : Nat) (track_id : String)
  | OtherEvent
deriving DecidableEq

/-- `PlayerWorker::handle_player_event` (`worker.rs` lines 541-583):
translate an engine-native event into at most one bridge event.  The
`Playing` arm fills `duration_ms: 0` (line 546, "Duration will be updated
separately"); the track URI is `self.current_track_uri` with `""` as the
`unwrap_or_default()` fallback. -/
def PlayerWorker.handle_player_event (s : PlayerWorkerState)
    (event : LibrespotPlayerEvent) : Option PlayerEvent :=
  match event with
  | LibrespotPlayerEvent.Playing _ _ position_ms =>
    some (PlayerEvent.Playing (s.current_track_uri.getD "") position_ms 0)
  | LibrespotPlayerEvent.Paused _ _ position_ms =>
    some (PlayerEvent.Paused (s.current_track_uri.getD "") position_ms)
  | LibrespotPlayerEvent.Stopped _ _ => some PlayerEvent.Stopped
  | LibrespotPlayerEvent.EndOfTrack _ _ =>
    some (PlayerEvent.TrackEnded (s.current_track_uri.getD ""))
  | LibrespotPlayerEvent.TimeToPreloadNextTrack _ _ =>
    some PlayerEvent.TimeToPreloadNextTrack
  | LibrespotPlayerEvent.Loading _ _ _ =>
    some (PlayerEvent.Loading (s.current_track_uri.getD ""))
  | LibrespotPlayerEvent.Unavailable _ track_id =>
    some (PlayerEvent.Error ("Track unavailable: " ++ track_id))
  | LibrespotPlayerEvent.OtherEvent => none

/-- A concrete environment in which every external operation fails: no
cache, OAuth and session connect error out, no backend, no mixer. -/
def env0 : InitEnv :=
  ⟨false, none, fun _ _ _ => Except.error "no oauth", fun _ => Except.error "no connect",
   fun _ => false, false⟩

/-- A concrete environment in which OAuth and session connect succeed but
audio-backend resolution fails. -/
def envBackendFail : InitEnv :=
  ⟨false, none, fun _ _ _ => Except.ok ⟨"token"⟩, fun _ => Except.ok (),
   fun _ => false, false⟩

/-- A concrete environment in which every external operation succeeds. -/
def envAllOk : InitEnv :=
  ⟨false, none, fun _ _ _ => Except.ok ⟨"token2"⟩, fun _ => Except.ok (),
   fun _ => true, true⟩

/-- A freshly spawned worker state with the default configuration. -/
def s0 : PlayerWorkerState := PlayerWorker.new PlayerWorkerConfig.default

/-!
## OAuth callback parsing (`get_oauth_credentials`, `worker.rs` lines 285-331)

The callback listener reads one HTTP request line, takes its second
whitespace-separated token as the request path, parses `code` and `state`
out of the query string, verifies `state`, and only then performs the
token-endpoint exchange (lines 333-350).  Query parsing models
`url::Url::parse(..).query_pairs()` for the inputs that occur here
(percent-escapes are not modelled; none of the inputs considered contain
them).
-/

/-- `str::split_whitespace` of the request line (the request lines handled
here separate their tokens with spaces). -/
def split_whitespace (line : String) : List (List Char) :=
  (line.data.splitOnP (fun c => c.isWhitespace)).filter (fun w => w ≠ [])

/-- `request_line.split_whitespace().nth(1)`: the request path. -/
def requestPath (request_line : String) : Option (List Char) :=
  (split_whitespace request_line).get? 1

/-- The raw `key=value` fragments of the query string of a path: everything
after the first `?` and before any `#` fragment, split on `&`. -/
def queryOf (path : List Char) : List (List Char) :=
  match path.dropWhile (fun c => c ≠ '?') with
  | [] => []
  | _ :: rest => (rest.takeWhile (fun c => c ≠ '#')).splitOn '&'

/-- One `key=value` fragment as a pair (`key` before the first `=`, `value`
after it; a fragment without `=` has the empty value). -/
def pairOf (p : List Char) : List Char × List Char :=
  (p.takeWhile (fun c => c ≠ '='), (p.dropWhile (fun c => c ≠ '=')).drop 1)

/-- `url.query_pairs().find(|(key, _)| key == k).map(|(_, value)| value)`. -/
def queryParam (path : List Char) (key : List Char) : Option (List Char) :=
  (((queryOf path).map pairOf).find? (fun kv => kv.1 = key)).map (fun kv => kv.2)

/-- The `code` extraction (`worker.rs` lines 293-306). -/
def extractCode (request_line : String) : Option String :=
  (requestPath request_line).bind
    (fun path => (queryParam path "code".data).map String.mk)

/-- The `state` extraction (`worker.rs` lines 309-318). -/
def extractState (request_line : String) : Option String :=
  (requestPath request_line).bind
    (fun path => (queryParam path "state".data).map String.mk)

/-- The callback-handling phase of `get_oauth_credentials` (`worker.rs`
lines 293-331): extract the authorization code (failing with
"Failed to extract authorization code" when absent), then compare the
returned `state` with the generated one, and abort with
"CSRF state mismatch" on any difference.  An `ok code` is the only way the
function proceeds to the token-endpoint exchange (lines 333-350); an
`error` aborts the flow before any exchange and is not retried. -/
def oauthCallback (request_line : String) (state : String) : Except String String :=
  match extractCode request_line with
  | none => Except.error "Failed to extract authorization code"
  | some code =>
    if extractState request_line = some state then Except.ok code
    else Except.error "CSRF state mismatch"

/-!
## PKCE verifier/challenge generation (`get_oauth_credentials`, lines 243-254)

The primitives below model the external `base64` crate's
`URL_SAFE_NO_PAD` engine and the `sha2` crate's SHA-256 (RFC 4648 §5 and
FIPS 180-4; both crates live outside this repository and are used by the
source as black boxes with exactly these specified meanings).
-/

/-- The URL-safe base64 alphabet of RFC 4648 §5. -/
def B64URL_ALPHABET : List Char :=
  "ABCDEFGHIJKLMNOPQRSTUVWXYZabcdefghijklmnopqrstuvwxyz0123456789-_".data

/-- Digit-to-character lookup for URL-safe base64. -/
def b64Char (n : Nat) : Char := B64URL_ALPHABET.getD n 'A'

/-- Unpadded URL-safe base64 of a byte list (`URL_SAFE_NO_PAD.encode`). -/
def base64UrlNoPad : List Nat → List Char
  | [] => []
  | [b0] => [b64Char (b0 / 4), b64Char (b0 % 4 * 16)]
  | [b0, b1] => [b64Char (b0 / 4), b64Char (b0 % 4 * 16 + b1 / 16), b64Char (b1 % 16 * 4)]
  | b0 :: b1 :: b2 :: rest =>
    b64Char (b0 / 4) :: b64Char (b0 % 4 * 16 + b1 / 16) ::
      b64Char (b1 % 16 * 4 + b2 / 64) :: b64Char (b2 % 64) :: base64UrlNoPad rest

/-- 32-bit truncation. -/
def w32 (n : Nat) : Nat := n % 4294967296

/-- 32-bit right rotation (arguments below 2^32). -/
def rotr32 (x n : Nat) : Nat := w32 (x / 2 ^ n + x % 2 ^ n * 2 ^ (32 - n))

/-- 32-bit right shift. -/
def shr32 (x n : Nat) : Nat := x / 2 ^ n

/-- The 64 SHA-256 round constants (FIPS 180-4 §4.2.2), in decimal. -/
def sha256K : List Nat :=
  [1116352408, 1899447441, 3049323471, 3921009573, 961987163, 1508970993,
   2453635748, 2870763221, 3624381080, 310598401, 607225278, 1426881987,
   1925078388, 2162078206, 2614888103, 3248222580, 3835390401, 4022224774,
   264347078, 604807628, 770255983, 1249150122, 1555081692, 1996064986,
   2554220882, 2821834349, 2952996808, 3210313671, 3336571891, 3584528711,
   113926993, 338241895, 666307205, 773529912, 1294757372, 1396182291,
   1695183700, 1986661051, 2177026350, 2456956037, 2730485921, 2820302411,
   3259730800, 3345764771, 3516065817, 3600352804, 4094571909, 275423344,
   430227734, 506948616, 659060556, 883997877, 958139571, 1322822218,
   1537002063, 1747873779, 1955562222, 2024104815, 2227730452, 2361852424,
   2428436474, 2756734187, 3204031479, 3329325298]

/-- The initial SHA-256 hash value (FIPS 180-4 §5.3.3), in decimal. -/
def sha256H0 : List Nat :=
  [1779033703, 3144134277, 1013904242, 2773480762, 1359893119, 2600822924,
   528734635, 1541459225]

/-- Big-endian bytes of a number, `k` bytes wide. -/
def bytesBE : Nat → Nat → List Nat
  | 0, _ => []
  | k + 1, n => bytesBE k (n / 256) ++ [n % 256]

/-- SHA-256 message padding: append `0x80`, zeros to 56 mod 64, and the
64-bit big-endian bit length. -/
def sha256Pad (msg : List Nat) : List Nat :=
  msg ++ [128] ++ List.replicate ((64 - (msg.length + 9) % 64) % 64) 0 ++
    bytesBE 8 (msg.length * 8)

/-- Big-endian 32-bit words of a byte list. -/
def bytesToWords : List Nat → List Nat
  | b0 :: b1 :: b2 :: b3 :: rest =>
    (((b0 * 256 + b1) * 256 + b2) * 256 + b3) :: bytesToWords rest
  | _ => []

/-- 64-byte blocks of a byte list (fuel-driven structural recursion; each
step consumes at least one element, so `l.length` fuel always suffices). -/
def chunks64Aux : Nat → List Nat → List (List Nat)
  | 0, _ => []
  | _, [] => []
  | fuel + 1, b :: bs => ((b :: bs).take 64) :: chunks64Aux fuel ((b :: bs).drop 64)

/-- 64-byte blocks of a byte list. -/
def chunks64 (l : List Nat) : List (List Nat) := chunks64Aux l.length l

/-- FIPS 180-4 σ₀. -/
def smallSigma0 (x : Nat) : Nat := Nat.xor (Nat.xor (rotr32 x 7) (rotr32 x 18)) (shr32 x 3)

/-- FIPS 180-4 σ₁. -/
def smallSigma1 (x : Nat) : Nat := Nat.xor (Nat.xor (rotr32 x 17) (rotr32 x 19)) (shr32 x 10)

/-- FIPS 180-4 Σ₀. -/
def bigSigma0 (x : Nat) : Nat := Nat.xor (Nat.xor (rotr32 x 2) (rotr32 x 13)) (rotr32 x 22)

/-- FIPS 180-4 Σ₁. -/
def bigSigma1 (x : Nat) : Nat := Nat.xor (Nat.xor (rotr32 x 6) (rotr32 x 11)) (rotr32 x 25)

/-- FIPS 180-4 Ch (the complement of `e` within 32 bits is `2^32 - 1 - e`). -/
def chFn (e f g : Nat) : Nat := Nat.xor (Nat.land e f) (Nat.land (4294967295 - e) g)

/-- FIPS 180-4 Maj. -/
def majFn (a b c : Nat) : Nat :=
  Nat.xor (Nat.xor (Nat.land a b) (Nat.land a c)) (Nat.land b c)

/-- Message-schedule extension: run `fuel` extension steps, each appending
`σ₁(w[i-2]) + w[i-7] + σ₀(w[i-15]) + w[i-16]` (mod 2^32). -/
def sha256Extend : Nat → List Nat → List Nat
  | 0, ws => ws
  | fuel + 1, ws =>
    let i := ws.length
    sha256Extend fuel
      (ws ++ [w32 (smallSigma1 (ws.getD (i - 2) 0) + ws.getD (i - 7) 0 +
        smallSigma0 (ws.getD (i - 15) 0) + ws.getD (i - 16) 0)])

/-- The 64 compression rounds; the working variables `[a,b,c,d,e,f,g,h]`
are carried as an 8-element list. -/
def sha256Rounds : List (Nat × Nat) → List Nat → List Nat
  | [], st => st
  | (k, w) :: rest, st =>
    let a := st.getD 0 0
    let b := st.getD 1 0
    let c := st.getD 2 0
    let d := st.getD 3 0
    let e := st.getD 4 0
    let f := st.getD 5 0
    let g := st.getD 6 0
    let hh := st.getD 7 0
    let temp1 := w32 (hh + bigSigma1 e + chFn e f g + k + w)
    let temp2 := w32 (bigSigma0 a + majFn a b c)
    sha256Rounds rest [w32 (temp1 + temp2), a, b, c, w32 (d + temp1), e, f, g]

/-- Compress one 64-byte chunk into the running hash value. -/
def sha256Chunk (hs : List Nat) (chunk : List Nat) : List Nat :=
  let ws := sha256Extend 48 (bytesToWords chunk)
  let st := sha256Rounds (sha256K.zip ws) hs
  (hs.zip st).map (fun p => w32 (p.1 + p.2))

/-- SHA-256 of a byte list, as a 32-byte list. -/
def sha256 (msg : List Nat) : List Nat :=
  ((chunks64 (sha256Pad msg)).foldl sha256Chunk sha256H0).foldr
    (fun w acc => bytesBE 4 w ++ acc) []

/-- `str::as_bytes` of an ASCII string carried as a character list (all
base64url output is ASCII, so the UTF-8 bytes are the code points). -/
def utf8Bytes (s : List Char) : List Nat := s.map Char.toNat

/-- PKCE verifier/challenge generation from `get_oauth_credentials`
(`worker.rs` lines 243-254): `verifier` is the unpadded base64url encoding
of the verifier bytes (64 random bytes in the source); `challenge` is the
unpadded base64url encoding of the SHA-256 hash of the *verifier string's*
bytes (`hasher.update(verifier.as_bytes())`).  The challenge is then placed
verbatim in the authorization URL (lines 256-271). -/
def pkceVerifierChallenge (verifier_bytes : List Nat) : List Char × List Char :=
  let verifier := base64UrlNoPad verifier_bytes
  let challenge := base64UrlNoPad (sha256 (utf8Bytes verifier))
  (verifier, challenge)

/-- Number of `Shutdown` events in an event list. -/
def countShutdown : List PlayerEvent → Nat
  | [] => 0
  | PlayerEvent.Shutdown :: rest => countShutdown rest + 1
  | _ :: rest => countShutdown rest

/-- A command list is *clean up to shutdown* when every `Preload` occurring
before the first `Shutdown` command carries a URI the engine can parse —
exactly the condition under which no `handle_command` call errors before
the loop reaches its `Shutdown` (or runs out of commands). -/
def cleanUntilShutdown : List PlayerCommand → Bool
  | [] => true
  | PlayerCommand.Shutdown :: _ => true
  | PlayerCommand.Preload uri :: rest =>
    (match SpotifyId.from_uri uri with
     | Except.ok _ => true
     | Except.error _ => false) && cleanUntilShutdown rest
  | _ :: rest => cleanUntilShutdown rest

/-- Sanity vector for the base64url model: `"foobar"` encodes to
`"Zm9vYmFy"` (RFC 4648 §10 test vector, URL-safe alphabet). -/
theorem base64UrlNoPad_foobar :
    base64UrlNoPad [102, 111, 111, 98, 97, 114] = "Zm9vYmFy".data := by decide

set_option maxRecDepth 100000 in
/-- Sanity vector for the SHA-256 model: the FIPS 180-4 digest of
`"abc"`. -/
theorem sha256_abc :
    sha256 [97, 98, 99]
      = [186, 120, 22, 191, 143, 1, 207, 234, 65, 65, 64, 222, 93, 174,
         34, 35, 176, 3, 97, 163, 150, 23, 122, 156, 180, 16, 255, 97,
         242, 0, 21, 173] := by decide

/-!
## Claim theorems
-/

/-- C5: for every verifier — the unpadded base64url encoding of the random
verifier bytes — the code challenge placed in the authorization URL equals
the unpadded base64url encoding of the SHA-256 hash of the verifier
string's bytes: `challenge = base64url(SHA256(verifier))` exactly. -/
theorem pkce_challenge_is_b64url_sha256_of_verifier (verifier_bytes : List Nat) :
    (pkceVerifierChallenge verifier_bytes).2
      = base64UrlNoPad (sha256 (utf8Bytes (pkceVerifierChallenge verifier_bytes).1)) := rfl

/-- C8: for every volume `v` in `0..=65535` and every worker state
(initialized or not), `SetVolume(v)` records `v` as the current volume and
emits exactly `VolumeChanged{volume: v}`, with no failure path (the result
is `Ok(false)`) and no engine call. -/
theorem set_volume_processed_any_state (env : InitEnv) (s : PlayerWorkerState) (v : Nat)
    (_hv : v ≤ 65535) :
    PlayerWorker.handle_command env s (PlayerCommand.SetVolume v)
      = ⟨{ s with current_volume := v }, Except.ok false,
         [PlayerEvent.VolumeChanged v], []⟩ := rfl

/-- Witness for C8 at `v = 123` on a fresh worker. -/
theorem set_volume_processed_any_state_witness :
    PlayerWorker.handle_command env0 s0 (PlayerCommand.SetVolume 123)
      = ⟨{ s0 with current_volume := 123 }, Except.ok false,
         [PlayerEvent.VolumeChanged 123], []⟩ :=
  set_volume_processed_any_state env0 s0 123 (by decide)

/-- C9: processing `Stop` is idempotent — after a first `Stop`, a second
`Stop` produces no error (`Ok(false)`), sends no event, leaves the worker
state exactly as after the single `Stop`, and the current track URI is
`None` after it. -/
theorem stop_idempotent (env : InitEnv) (s : PlayerWorkerState) :
    (PlayerWorker.handle_command env
        (PlayerWorker.handle_command env s PlayerCommand.Stop).state
        PlayerCommand.Stop).state
      = (PlayerWorker.handle_command env s PlayerCommand.Stop).state ∧
    (PlayerWorker.handle_command env
        (PlayerWorker.handle_command env s PlayerCommand.Stop).state
        PlayerCommand.Stop).events = [] ∧
    (PlayerWorker.handle_command env
        (PlayerWorker.handle_command env s PlayerCommand.Stop).state
        PlayerCommand.Stop).result = Except.ok false ∧
    (PlayerWorker.handle_command env
        (PlayerWorker.handle_command env s PlayerCommand.Stop).state
        PlayerCommand.Stop).state.current_track_uri = none :=
  ⟨rfl, rfl, rfl, rfl⟩

/-- C10: every bridge `Playing` event produced from an engine-native
`Playing` event carries `duration_ms = 0`, whatever the track, request id
or position — the last known duration is never carried. -/
theorem playing_event_duration_zero (s : PlayerWorkerState) (pid : Nat) (tid : String)
    (pos : Nat) :
    PlayerWorker.handle_player_event s (LibrespotPlayerEvent.Playing pid tid pos)
      = some (PlayerEvent.Playing (s.current_track_uri.getD "") pos 0) := rfl

/-- C6 counterexample: a callback whose returned `state` (`"wrong"`)
differs from the generated one (`"expected"`) but which carries no `code`
parameter fails with the code-extraction error, not with the
state-mismatch error the claim requires. -/
theorem state_mismatch_error_shadowed_cex :
    extractState "GET /login?state=wrong HTTP/1.1" = some "wrong" ∧
    "wrong" ≠ "expected" ∧
    oauthCallback "GET /login?state=wrong HTTP/1.1" "expected"
      = Except.error "Failed to extract authorization code" := by decide

/-- C6 amended: for every callback whose returned `state` differs from the
generated state token (including a missing `state` parameter), the
bootstrapper aborts without performing any token-endpoint exchange (the
callback phase never returns `ok`); when the callback does carry a `code`
parameter the failure is precisely the `"CSRF state mismatch"` error
(otherwise the earlier code-extraction failure is reported instead).  The
abort is a plain `Err` return, never retried. -/
theorem mismatched_state_aborts (request_line : String) (state : String)
    (hm : extractState request_line ≠ some state) :
    (oauthCallback request_line state).toOption = none ∧
    (∀ code, extractCode request_line = some code →
      oauthCallback request_line state = Except.error "CSRF state mismatch") := by
  cases hc : extractCode request_line with
  | none =>
    refine ⟨?_, ?_⟩
    · simp [oauthCallback, hc, Except.toOption]
    · intro code h
      simp at h
  | some c =>
    refine ⟨?_, fun code _ => ?_⟩
    · simp [oauthCallback, hc, hm, Except.toOption]
    · simp [oauthCallback, hc, hm]

/-- Witness for C6 on a callback carrying `code=abc` and a mismatched
`state=wrong` against the expected state `"right"`. -/
theorem mismatched_state_aborts_witness :
    (oauthCallback "GET /login?code=abc&state=wrong HTTP/1.1" "right").toOption = none ∧
    oauthCallback "GET /login?code=abc&state=wrong HTTP/1.1" "right"
      = Except.error "CSRF state mismatch" := by
  have h := mismatched_state_aborts "GET /login?code=abc&state=wrong HTTP/1.1" "right"
    (by decide)
  exact ⟨h.1, h.2 "abc" (by decide)⟩

/-- C1 counterexample: a `Preload` whose URI does not parse makes
`handle_command` return an error, which propagates out of the worker loop:
the loop terminates in its error branch, emits *no* `Error` event (and no
event at all), and never processes the subsequent command.  This refutes
"no Load or Preload failure terminates the worker loop". -/
theorem preload_failure_kills_loop_cex :
    (PlayerWorker.handle_command env0 s0 (PlayerCommand.Preload "bad")).result
      = Except.error "InvalidUri" ∧
    PlayerWorker.run env0 s0 [PlayerCommand.Preload "bad", PlayerCommand.SetVolume 5]
      = ⟨s0, Except.error "InvalidUri", [], []⟩ := by decide

/-- Unfolding of `run` over a command whose handling returns `Ok(false)`. -/
theorem run_cons_ok_false (env : InitEnv) (s : PlayerWorkerState)
    (cmd : PlayerCommand) (rest : List PlayerCommand)
    (hr : (PlayerWorker.handle_command env s cmd).result = Except.ok false) :
    PlayerWorker.run env s (cmd :: rest)
      = ⟨(PlayerWorker.run env (PlayerWorker.handle_command env s cmd).state rest).state,
         (PlayerWorker.run env (PlayerWorker.handle_command env s cmd).state rest).result,
         (PlayerWorker.handle_command env s cmd).events
           ++ (PlayerWorker.run env (PlayerWorker.handle_command env s cmd).state rest).events,
         (PlayerWorker.handle_command env s cmd).calls
           ++ (PlayerWorker.run env (PlayerWorker.handle_command env s cmd).state rest).calls⟩ := by
  simp [PlayerWorker.run, hr]

/-- Whenever `load_track` fails, it leaves the worker state untouched and
makes no engine call (both its failure paths return before mutating). -/
theorem load_track_error_shape (s : PlayerWorkerState) (uri : String)
    (start_playing : Bool) (position_ms : Nat) (m : String)
    (h : (PlayerWorker.load_track s uri start_playing position_ms).2.1
      = Except.error m) :
    PlayerWorker.load_track s uri start_playing position_ms
      = (s, Except.error m, []) := by
  rcases hu : SpotifyId.from_uri uri with e2 | tid
  · simp only [PlayerWorker.load_track, hu] at h ⊢
    simp only [Except.error.injEq] at h
    rw [h]
  · cases hp : s.player with
    | some u => simp [PlayerWorker.load_track, hu, hp] at h
    | none =>
      simp only [PlayerWorker.load_track, hu, hp] at h ⊢
      simp only [Except.error.injEq] at h
      rw [h]

/-- C1 amended: a failing `Load` is caught inside the worker — the handler
returns `Ok(false)`, leaves the worker in its current state, converts the
failure to a single `Error{message}` event, and the loop carries on with
the remaining commands; a failing `Preload` (unparsable URI) instead
propagates out of `handle_command` and terminates the worker loop in its
current state with the error, emitting no event at all. -/
theorem load_caught_preload_propagates (env : InitEnv) (s : PlayerWorkerState)
    (uri : String) (start_playing : Bool) (position_ms : Nat) (e m : String)
    (rest : List PlayerCommand) :
    (PlayerWorker.handle_command env s
        (PlayerCommand.Load uri start_playing position_ms)).result = Except.ok false ∧
    ((PlayerWorker.load_track s uri start_playing position_ms).2.1 = Except.error m →
      PlayerWorker.handle_command env s (PlayerCommand.Load uri start_playing position_ms)
        = ⟨s, Except.ok false,
            [PlayerEvent.Error ("Failed to load track: " ++ m)], []⟩ ∧
      PlayerWorker.run env s (PlayerCommand.Load uri start_playing position_ms :: rest)
        = ⟨(PlayerWorker.run env s rest).state, (PlayerWorker.run env s rest).result,
           PlayerEvent.Error ("Failed to load track: " ++ m)
             :: (PlayerWorker.run env s rest).events,
           (PlayerWorker.run env s rest).calls⟩) ∧
    (SpotifyId.from_uri uri = Except.error e →
      PlayerWorker.run env s (PlayerCommand.Preload uri :: rest)
        = ⟨s, Except.error e, [], []⟩) := by
  refine ⟨?_, ?_, ?_⟩
  · rcases h2 : (PlayerWorker.load_track s uri start_playing position_ms).2.1 with e2 | u
    · simp [PlayerWorker.handle_command, h2]
    · simp [PlayerWorker.handle_command, h2]
  · intro hm
    have hshape := load_track_error_shape s uri start_playing position_ms m hm
    have hstep : PlayerWorker.handle_command env s
        (PlayerCommand.Load uri start_playing position_ms)
        = ⟨s, Except.ok false,
            [PlayerEvent.Error ("Failed to load track: " ++ m)], []⟩ := by
      simp [PlayerWorker.handle_command, hshape]
    refine ⟨hstep, ?_⟩
    rw [run_cons_ok_false env s (PlayerCommand.Load uri start_playing position_ms) rest
      (by rw [hstep])]
    simp [hstep]
  · intro hf
    simp [PlayerWorker.run, PlayerWorker.handle_command, PlayerWorker.preload_track, hf]

/-- Witness for C1 (amended) at the unparsable URI `"bad"`: the `Load`
failure is caught and surfaced as the single `Error` event, while the
`Preload` failure terminates the loop with no event. -/
theorem load_caught_preload_propagates_witness :
    (PlayerWorker.handle_command env0 s0 (PlayerCommand.Load "bad" true 0)).result
      = Except.ok false ∧
    (PlayerWorker.handle_command env0 s0 (PlayerCommand.Load "bad" true 0)).events
      = [PlayerEvent.Error "Failed to load track: Invalid Spotify URI 'bad': InvalidUri"] ∧
    PlayerWorker.run env0 s0 [PlayerCommand.Preload "bad"]
      = ⟨s0, Except.error "InvalidUri", [], []⟩ := by
  have h := load_caught_preload_propagates env0 s0 "bad" true 0 "InvalidUri"
    "Invalid Spotify URI 'bad': InvalidUri" []
  refine ⟨h.1, ?_, h.2.2 (by decide)⟩
  have h2 := (h.2.1 (by decide)).1
  rw [h2]
  decide

/-- C4 counterexample: on a worker whose `Initialize` has never succeeded
(both handles `None`), a `SetVolume` command — not a `Shutdown` — is fully
processed: it records the volume and emits `VolumeChanged`.  This refutes
"no command sent to the worker is processed except Shutdown" before a
successful `Initialize`. -/
theorem command_before_init_processed_cex :
    s0.player = none ∧ s0.session = none ∧
    PlayerWorker.handle_command env0 s0 (PlayerCommand.SetVolume 5)
      = ⟨{ s0 with current_volume := 5 }, Except.ok false,
         [PlayerEvent.VolumeChanged 5], []⟩ := by decide

/-- C4 amended: before a successful `Initialize` (player handle `None`),
only the engine pass-through of `Play`/`Pause`/`Seek` is skipped (no engine
call, state unchanged, no event) and `Stop` merely clears the track URI;
`SetVolume` *is* processed regardless of initialization, a `Load` with a
parsable URI is processed and reports the `"Player not initialized"`
`Error` event, `Preload` is accepted (no engine call, no error), and
`Initialize` always runs and returns `Ok(false)`.  `Shutdown` is always
honored in every state: `handle_command` returns `Ok(true)` and the loop
exits immediately with the single terminal `Shutdown` event, ignoring any
later commands. -/
theorem uninit_commands_and_shutdown (env : InitEnv) (s : PlayerWorkerState)
    (h : s.player = none) :
    PlayerWorker.handle_command env s PlayerCommand.Play = ⟨s, Except.ok false, [], []⟩ ∧
    PlayerWorker.handle_command env s PlayerCommand.Pause = ⟨s, Except.ok false, [], []⟩ ∧
    (∀ p, PlayerWorker.handle_command env s (PlayerCommand.Seek p)
      = ⟨s, Except.ok false, [], []⟩) ∧
    PlayerWorker.handle_command env s PlayerCommand.Stop
      = ⟨{ s with current_track_uri := none }, Except.ok false, [], []⟩ ∧
    (∀ v, PlayerWorker.handle_command env s (PlayerCommand.SetVolume v)
      = ⟨{ s with current_volume := v }, Except.ok false,
         [PlayerEvent.VolumeChanged v], []⟩) ∧
    (∀ uri start_playing position_ms tid, SpotifyId.from_uri uri = Except.ok tid →
      PlayerWorker.handle_command env s (PlayerCommand.Load uri start_playing position_ms)
        = ⟨s, Except.ok false,
            [PlayerEvent.Error "Failed to load track: Player not initialized"], []⟩) ∧
    (∀ uri tid, SpotifyId.from_uri uri = Except.ok tid →
      PlayerWorker.handle_command env s (PlayerCommand.Preload uri)
        = ⟨s, Except.ok false, [], []⟩) ∧
    (∀ cid port,
      (PlayerWorker.handle_command env s (PlayerCommand.Initialize cid port)).result
        = Except.ok false) ∧
    (∀ s₂ : PlayerWorkerState,
      (PlayerWorker.handle_command env s₂ PlayerCommand.Shutdown).result
        = Except.ok true) ∧
    (∀ (s₂ : PlayerWorkerState) (rest : List PlayerCommand),
      (PlayerWorker.run env s₂ (PlayerCommand.Shutdown :: rest)).events
        = [PlayerEvent.Shutdown] ∧
      (PlayerWorker.run env s₂ (PlayerCommand.Shutdown :: rest)).result
        = Except.ok ()) := by
  refine ⟨?_, ?_, ?_, ?_, ?_, ?_, ?_, ?_, ?_, ?_⟩
  · simp [PlayerWorker.handle_command, h]
  · simp [PlayerWorker.handle_command, h]
  · intro p
    simp [PlayerWorker.handle_command, h]
  · simp [PlayerWorker.handle_command, h]
  · intro v
    simp [PlayerWorker.handle_command]
  · intro uri start_playing position_ms tid hu
    have hlt : PlayerWorker.load_track s uri start_playing position_ms
        = (s, Except.error "Player not initialized", []) := by
      simp [PlayerWorker.load_track, hu, h]
    have : ("Failed to load track: " ++ "Player not initialized" : String)
        = "Failed to load track: Player not initialized" := rfl
    simp [PlayerWorker.handle_command, hlt, this]
  · intro uri tid hu
    simp [PlayerWorker.handle_command, PlayerWorker.preload_track, hu, h]
  · intro cid port
    rcases h2 : (PlayerWorker.initWorker env s cid port).2.1 with e2 | u
    · simp [PlayerWorker.handle_command, h2]
    · simp [PlayerWorker.handle_command, h2]
  · intro s₂
    rfl
  · intro s₂ rest
    exact ⟨rfl, rfl⟩

/-- Witness for C4 (amended) on a fresh uninitialized worker, exercising
`Play`, a parsable-URI `Load` and `Shutdown`. -/
theorem uninit_commands_and_shutdown_witness :
    PlayerWorker.handle_command env0 s0 PlayerCommand.Play
      = ⟨s0, Except.ok false, [], []⟩ ∧
    PlayerWorker.handle_command env0 s0 (PlayerCommand.Load "spotify:track:abc" true 0)
      = ⟨s0, Except.ok false,
          [PlayerEvent.Error "Failed to load track: Player not initialized"], []⟩ ∧
    (PlayerWorker.run env0 s0 [PlayerCommand.Shutdown]).events
      = [PlayerEvent.Shutdown] := by
  have h := uninit_commands_and_shutdown env0 s0 rfl
  exact ⟨h.1, h.2.2.2.2.2.1 "spotify:track:abc" true 0 "abc" (by decide),
    (h.2.2.2.2.2.2.2.2.2 s0 []).1⟩

/-- `countShutdown` distributes over append. -/
theorem countShutdown_append (l₁ l₂ : List PlayerEvent) :
    countShutdown (l₁ ++ l₂) = countShutdown l₁ + countShutdown l₂ := by
  induction l₁ with
  | nil => simp [countShutdown]
  | cons x xs ih =>
    cases x <;> simp [countShutdown, ih]
    omega

/-- No arm of `handle_command` ever sends a `Shutdown` event: the single
terminal `Shutdown` event is sent by `run` itself after the loop breaks. -/
theorem handle_command_no_shutdown_event (env : InitEnv) (s : PlayerWorkerState)
    (cmd : PlayerCommand) :
    countShutdown (PlayerWorker.handle_command env s cmd).events = 0 := by
  cases cmd with
  | Initialize cid port =>
    rcases h2 : (PlayerWorker.initWorker env s cid port).2.1 with e | u
    · simp [PlayerWorker.handle_command, h2, countShutdown]
    · simp [PlayerWorker.handle_command, h2, countShutdown]
  | Load uri sp pos =>
    rcases h2 : (PlayerWorker.load_track s uri sp pos).2.1 with e | u
    · simp [PlayerWorker.handle_command, h2, countShutdown]
    · simp [PlayerWorker.handle_command, h2, countShutdown]
  | Preload uri =>
    rcases h2 : (PlayerWorker.preload_track s uri).2.1 with e | u
    · simp [PlayerWorker.handle_command, h2, countShutdown]
    · simp [PlayerWorker.handle_command, h2, countShutdown]
  | Play => cases hp : s.player <;> simp [PlayerWorker.handle_command, hp, countShutdown]
  | Pause => cases hp : s.player <;> simp [PlayerWorker.handle_command, hp, countShutdown]
  | Seek p => cases hp : s.player <;> simp [PlayerWorker.handle_command, hp, countShutdown]
  | Stop => simp [PlayerWorker.handle_command, countShutdown]
  | SetVolume v => simp [PlayerWorker.handle_command, countShutdown]
  | Shutdown => simp [PlayerWorker.handle_command, countShutdown]

/-- On a clean command list the loop always returns `Ok(())` and its events
are some shutdown-free prefix followed by the single terminal `Shutdown`. -/
theorem run_clean_aux (env : InitEnv) (cmds : List PlayerCommand) :
    ∀ s : PlayerWorkerState, cleanUntilShutdown cmds = true →
      (PlayerWorker.run env s cmds).result = Except.ok () ∧
      ∃ pre, (PlayerWorker.run env s cmds).events = pre ++ [PlayerEvent.Shutdown] ∧
        countShutdown pre = 0 := by
  induction cmds with
  | nil =>
    intro s _
    exact ⟨rfl, [], rfl, rfl⟩
  | cons cmd rest ih =>
    intro s hcl
    cases cmd with
    | Shutdown => exact ⟨rfl, [], rfl, rfl⟩
    | Initialize cid port =>
      have hcl' : cleanUntilShutdown rest = true := by
        simpa [cleanUntilShutdown] using hcl
      have hr : (PlayerWorker.handle_command env s (PlayerCommand.Initialize cid port)).result
          = Except.ok false := by
        rcases h2 : (PlayerWorker.initWorker env s cid port).2.1 with e | u
        · simp [PlayerWorker.handle_command, h2]
        · simp [PlayerWorker.handle_command, h2]
      obtain ⟨ih1, pre, ihe, ihc⟩ :=
        ih (PlayerWorker.handle_command env s (PlayerCommand.Initialize cid port)).state hcl'
      rw [run_cons_ok_false env s _ rest hr]
      refine ⟨ih1,
        (PlayerWorker.handle_command env s (PlayerCommand.Initialize cid port)).events ++ pre,
        ?_, ?_⟩
      · simp [ihe]
      · rw [countShutdown_append, handle_command_no_shutdown_event, ihc]
    | Load uri sp pos =>
      have hcl' : cleanUntilShutdown rest = true := by
        simpa [cleanUntilShutdown] using hcl
      have hr : (PlayerWorker.handle_command env s (PlayerCommand.Load uri sp pos)).result
          = Except.ok false := by
        rcases h2 : (PlayerWorker.load_track s uri sp pos).2.1 with e | u
        · simp [PlayerWorker.handle_command, h2]
        · simp [PlayerWorker.handle_command, h2]
      obtain ⟨ih1, pre, ihe, ihc⟩ :=
        ih (PlayerWorker.handle_command env s (PlayerCommand.Load uri sp pos)).state hcl'
      rw [run_cons_ok_false env s _ rest hr]
      refine ⟨ih1,
        (PlayerWorker.handle_command env s (PlayerCommand.Load uri sp pos)).events ++ pre,
        ?_, ?_⟩
      · simp [ihe]
      · rw [countShutdown_append, handle_command_no_shutdown_event, ihc]
    | Preload uri =>
      rcases hu : SpotifyId.from_uri uri with e | tid
      · rw [cleanUntilShutdown] at hcl
        rw [hu] at hcl
        simp at hcl
      · have hcl' : cleanUntilShutdown rest = true := by
          rw [cleanUntilShutdown] at hcl
          rw [hu] at hcl
          simpa using hcl
        have hr : (PlayerWorker.handle_command env s (PlayerCommand.Preload uri)).result
            = Except.ok false := by
          cases hp : s.player <;>
            simp [PlayerWorker.handle_command, PlayerWorker.preload_track, hu, hp]
        obtain ⟨ih1, pre, ihe, ihc⟩ :=
          ih (PlayerWorker.handle_command env s (PlayerCommand.Preload uri)).state hcl'
        rw [run_cons_ok_false env s _ rest hr]
        refine ⟨ih1,
          (PlayerWorker.handle_command env s (PlayerCommand.Preload uri)).events ++ pre,
          ?_, ?_⟩
        · simp [ihe]
        · rw [countShutdown_append, handle_command_no_shutdown_event, ihc]
    | Play =>
      have hcl' : cleanUntilShutdown rest = true := by
        simpa [cleanUntilShutdown] using hcl
      have hr : (PlayerWorker.handle_command env s PlayerCommand.Play).result
          = Except.ok false := by
        cases hp : s.player <;> simp [PlayerWorker.handle_command, hp]
      obtain ⟨ih1, pre, ihe, ihc⟩ :=
        ih (PlayerWorker.handle_command env s PlayerCommand.Play).state hcl'
      rw [run_cons_ok_false env s _ rest hr]
      refine ⟨ih1, (PlayerWorker.handle_command env s PlayerCommand.Play).events ++ pre, ?_, ?_⟩
      · simp [ihe]
      · rw [countShutdown_append, handle_command_no_shutdown_event, ihc]
    | Pause =>
      have hcl' : cleanUntilShutdown rest = true := by
        simpa [cleanUntilShutdown] using hcl
      have hr : (PlayerWorker.handle_command env s PlayerCommand.Pause).result
          = Except.ok false := by
        cases hp : s.player <;> simp [PlayerWorker.handle_command, hp]
      obtain ⟨ih1, pre, ihe, ihc⟩ :=
        ih (PlayerWorker.handle_command env s PlayerCommand.Pause).state hcl'
      rw [run_cons_ok_false env s _ rest hr]
      refine ⟨ih1, (PlayerWorker.handle_command env s PlayerCommand.Pause).events ++ pre, ?_, ?_⟩
      · simp [ihe]
      · rw [countShutdown_append, handle_command_no_shutdown_event, ihc]
    | Seek p =>
      have hcl' : cleanUntilShutdown rest = true := by
        simpa [cleanUntilShutdown] using hcl
      have hr : (PlayerWorker.handle_command env s (PlayerCommand.Seek p)).result
          = Except.ok false := by
        cases hp : s.player <;> simp [PlayerWorker.handle_command, hp]
      obtain ⟨ih1, pre, ihe, ihc⟩ :=
        ih (PlayerWorker.handle_command env s (PlayerCommand.Seek p)).state hcl'
      rw [run_cons_ok_false env s _ rest hr]
      refine ⟨ih1, (PlayerWorker.handle_command env s (PlayerCommand.Seek p)).events ++ pre, ?_, ?_⟩
      · simp [ihe]
      · rw [countShutdown_append, handle_command_no_shutdown_event, ihc]
    | Stop =>
      have hcl' : cleanUntilShutdown rest = true := by
        simpa [cleanUntilShutdown] using hcl
      obtain ⟨ih1, pre, ihe, ihc⟩ :=
        ih (PlayerWorker.handle_command env s PlayerCommand.Stop).state hcl'
      rw [run_cons_ok_false env s PlayerCommand.Stop rest rfl]
      refine ⟨ih1, (PlayerWorker.handle_command env s PlayerCommand.Stop).events ++ pre, ?_, ?_⟩
      · simp [ihe]
      · rw [countShutdown_append, handle_command_no_shutdown_event, ihc]
    | SetVolume v =>
      have hcl' : cleanUntilShutdown rest = true := by
        simpa [cleanUntilShutdown] using hcl
      obtain ⟨ih1, pre, ihe, ihc⟩ :=
        ih (PlayerWorker.handle_command env s (PlayerCommand.SetVolume v)).state hcl'
      rw [run_cons_ok_false env s (PlayerCommand.SetVolume v) rest rfl]
      refine ⟨ih1,
        (PlayerWorker.handle_command env s (PlayerCommand.SetVolume v)).events ++ pre, ?_, ?_⟩
      · simp [ihe]
      · rw [countShutdown_append, handle_command_no_shutdown_event, ihc]

/-- C7 counterexample: the command sequence `[Preload "bad", Shutdown]`
contains a `Shutdown`, yet the loop exits through the `Preload` error with
*zero* `Shutdown` events emitted — refuting "for every command sequence …
exactly one terminal Shutdown event". -/
theorem shutdown_event_missing_cex :
    PlayerWorker.run env0 s0 [PlayerCommand.Preload "bad", PlayerCommand.Shutdown]
      = ⟨s0, Except.error "InvalidUri", [], []⟩ ∧
    countShutdown (PlayerWorker.run env0 s0
        [PlayerCommand.Preload "bad", PlayerCommand.Shutdown]).events = 0 := by decide

/-- C7 amended: for every worker state (initialized or not) and every
command sequence in which no `Preload` before the first `Shutdown` carries
an unparsable URI, the loop exits cleanly — through the `Shutdown` command
or through the channel-disconnected condition (end of the command list)
alike — emitting exactly one `Shutdown` event, which is terminal.  (A
failing `Preload` instead aborts the loop with an error and no `Shutdown`
event.) -/
theorem shutdown_and_disconnect_terminal (env : InitEnv) (s : PlayerWorkerState)
    (cmds : List PlayerCommand) (h : cleanUntilShutdown cmds = true) :
    (PlayerWorker.run env s cmds).result = Except.ok () ∧
    countShutdown (PlayerWorker.run env s cmds).events = 1 ∧
    ∃ pre, (PlayerWorker.run env s cmds).events = pre ++ [PlayerEvent.Shutdown] := by
  obtain ⟨h1, pre, he, hc⟩ := run_clean_aux env cmds s h
  refine ⟨h1, ?_, pre, he⟩
  rw [he, countShutdown_append, hc]
  rfl

/-- Witness for C7 (amended) on `[SetVolume 3, Shutdown]` from a fresh
uninitialized worker. -/
theorem shutdown_and_disconnect_terminal_witness :
    (PlayerWorker.run env0 s0 [PlayerCommand.SetVolume 3, PlayerCommand.Shutdown]).result
      = Except.ok () ∧
    countShutdown (PlayerWorker.run env0 s0
        [PlayerCommand.SetVolume 3, PlayerCommand.Shutdown]).events = 1 := by
  have h := shutdown_and_disconnect_terminal env0 s0
    [PlayerCommand.SetVolume 3, PlayerCommand.Shutdown] (by decide)
  exact ⟨h.1, h.2.1⟩

/-- Every OAuth call recorded by the credential phase uses the hard-coded
keymaster constants. -/
theorem credsPhase_oauth_keymaster (env : InitEnv) (cfg : PlayerWorkerConfig)
    (c : String) (p : Nat) (path : String)
    (h : ExtCall.oauthCall c p path ∈ (credsPhase env cfg).2) :
    c = KEYMASTER_CLIENT_ID ∧ p = KEYMASTER_REDIRECT_PORT ∧
      path = KEYMASTER_REDIRECT_PATH := by
  unfold credsPhase at h
  dsimp only at h
  split at h
  · simp at h
  · simp at h
    exact h

/-- `create_player` never records an OAuth call. -/
theorem create_player_no_oauth (env : InitEnv) (s : PlayerWorkerState)
    (c : String) (p : Nat) (path : String) :
    ExtCall.oauthCall c p path ∉ (PlayerWorker.create_player env s).2.2 := by
  unfold PlayerWorker.create_player
  dsimp only
  split
  · split
    · simp
    · simp
  · simp

/-- Every OAuth call recorded by `initWorker` uses the hard-coded keymaster
constants, whatever arguments the `Initialize` command carried. -/
theorem initWorker_oauth_keymaster (env : InitEnv) (s : PlayerWorkerState)
    (cid : String) (port : Nat) (c : String) (p : Nat) (path : String)
    (h : ExtCall.oauthCall c p path ∈ (PlayerWorker.initWorker env s cid port).2.2) :
    c = KEYMASTER_CLIENT_ID ∧ p = KEYMASTER_REDIRECT_PORT ∧
      path = KEYMASTER_REDIRECT_PATH := by
  unfold PlayerWorker.initWorker at h
  split at h
  · rename_i e calls heq
    refine credsPhase_oauth_keymaster env s.config c p path ?_
    rw [heq]
    exact h
  · rename_i creds calls heq
    split at h
    · rename_i e hc
      rcases List.mem_append.mp h with h1 | h1
      · refine credsPhase_oauth_keymaster env s.config c p path ?_
        rw [heq]
        exact h1
      · simp at h1
    · rename_i u hc
      dsimp only at h
      simp only [List.append_assoc, List.mem_append, List.mem_singleton] at h
      rcases h with h1 | h1 | h1
      · refine credsPhase_oauth_keymaster env s.config c p path ?_
        rw [heq]
        exact h1
      · simp at h1
      · exact absurd h1 (create_player_no_oauth env { s with session := some () } c p path)

/-- C3: the `Initialize` payload is dead — for any two `client_id` /
`redirect_port` pairs, initialization is the very same computation, and
every OAuth call it makes uses the fixed keymaster client id
`"65b708073fc0480ea92a077233ca87bd"`, redirect port `8898` and redirect
path `"/login"`. -/
theorem init_ignores_payload_uses_keymaster (env : InitEnv) (s : PlayerWorkerState)
    (cid₁ : String) (port₁ : Nat) (cid₂ : String) (port₂ : Nat) :
    PlayerWorker.initWorker env s cid₁ port₁ = PlayerWorker.initWorker env s cid₂ port₂ ∧
    ∀ c p path,
      ExtCall.oauthCall c p path ∈ (PlayerWorker.initWorker env s cid₁ port₁).2.2 →
        c = KEYMASTER_CLIENT_ID ∧ p = KEYMASTER_REDIRECT_PORT ∧
          path = KEYMASTER_REDIRECT_PATH := by
  refine ⟨rfl, ?_⟩
  intro c p path h
  exact initWorker_oauth_keymaster env s cid₁ port₁ c p path h

/-- Witness for C3: two `Initialize` payloads that differ in both fields
produce the same computation, and the OAuth call actually recorded in the
no-cache environment carries the keymaster constants. -/
theorem init_ignores_payload_uses_keymaster_witness :
    PlayerWorker.initWorker env0 s0 "app-a" 1234
      = PlayerWorker.initWorker env0 s0 "app-b" 4321 ∧
    (KEYMASTER_CLIENT_ID = KEYMASTER_CLIENT_ID ∧
      KEYMASTER_REDIRECT_PORT = KEYMASTER_REDIRECT_PORT ∧
      KEYMASTER_REDIRECT_PATH = KEYMASTER_REDIRECT_PATH) := by
  have h := init_ignores_payload_uses_keymaster env0 s0 "app-a" 1234 "app-b" 4321
  exact ⟨h.1, h.2 KEYMASTER_CLIENT_ID KEYMASTER_REDIRECT_PORT KEYMASTER_REDIRECT_PATH
    (by decide)⟩

/-- When `initWorker` fails, the player handle and the configuration are
exactly what they were before the attempt. -/
theorem initWorker_error_preserves (env : InitEnv) (s : PlayerWorkerState)
    (cid : String) (port : Nat) (e : String)
    (hf : (PlayerWorker.initWorker env s cid port).2.1 = Except.error e) :
    (PlayerWorker.initWorker env s cid port).1.player = s.player ∧
    (PlayerWorker.initWorker env s cid port).1.config = s.config := by
  rcases hq : credsPhase env s.config with ⟨r, calls⟩
  cases r with
  | error e2 => simp [PlayerWorker.initWorker, hq]
  | ok creds =>
    cases hc : env.connect creds with
    | error e2 => simp [PlayerWorker.initWorker, hq, hc]
    | ok u =>
      cases hb : env.backendFind s.config.audio_backend with
      | false => simp [PlayerWorker.initWorker, PlayerWorker.create_player, hq, hc, hb]
      | true =>
        cases hm : env.mixerFind with
        | false => simp [PlayerWorker.initWorker, PlayerWorker.create_player, hq, hc, hb, hm]
        | true =>
          simp [PlayerWorker.initWorker, PlayerWorker.create_player, hq, hc, hb, hm] at hf

/-- When every external operation succeeds (no cache configured, OAuth,
connect, backend and mixer all succeed), `initWorker` returns `Ok(())`. -/
theorem initWorker_allOk (env₂ : InitEnv) (s' : PlayerWorkerState) (cid : String)
    (port : Nat) (creds : Credentials)
    (h0 : s'.config.cache_path = none)
    (h1 : env₂.oauth KEYMASTER_CLIENT_ID KEYMASTER_REDIRECT_PORT KEYMASTER_REDIRECT_PATH
      = Except.ok creds)
    (h2 : env₂.connect creds = Except.ok ())
    (h3 : env₂.backendFind s'.config.audio_backend = true)
    (h4 : env₂.mixerFind = true) :
    (PlayerWorker.initWorker env₂ s' cid port).2.1 = Except.ok () := by
  simp [PlayerWorker.initWorker, credsPhase, PlayerWorker.create_player, h0, h1, h2, h3, h4]

/-- C2 counterexample: OAuth and session connect succeed but audio-backend
resolution fails; the worker emits the single `InitializationFailed` event,
yet the *session handle is left set* (`Some`), because the source stores it
before attempting `create_player` — refuting "both the session handle and
the player handle are still None afterwards". -/
theorem init_failure_session_left_set_cex :
    s0.session = none ∧ s0.player = none ∧
    (PlayerWorker.handle_command envBackendFail s0
        (PlayerCommand.Initialize "app-id" 9000)).events
      = [PlayerEvent.InitializationFailed "Audio backend 'default' not found"] ∧
    (PlayerWorker.handle_command envBackendFail s0
        (PlayerCommand.Initialize "app-id" 9000)).state.session = some () := by decide

/-- C2 amended: every failure inside `Initialize` handling yields exactly
one `InitializationFailed{message}` event, the worker loop does not
terminate (`Ok(false)`), and the *player* handle is still `None`.  The
session handle is still `None` when the failure was the OAuth flow
(credential phase error) or the session connect, but is already `Some`
whenever the connect succeeded and the failure came later (backend/mixer
resolution), because the source stores the session before attempting
`create_player`.  A subsequent `Initialize` command is accepted and, in an
environment where the external operations succeed, completes with a single
`Initialized` event. -/
theorem init_failure_single_event_player_none (env : InitEnv) (s : PlayerWorkerState)
    (cid : String) (port : Nat) (e : String)
    (hs : s.session = none)
    (hp : s.player = none)
    (hf : (PlayerWorker.initWorker env s cid port).2.1 = Except.error e) :
    (PlayerWorker.handle_command env s (PlayerCommand.Initialize cid port)).events
      = [PlayerEvent.InitializationFailed e] ∧
    (PlayerWorker.handle_command env s (PlayerCommand.Initialize cid port)).result
      = Except.ok false ∧
    (PlayerWorker.handle_command env s (PlayerCommand.Initialize cid port)).state.player
      = none ∧
    (∀ e2, (credsPhase env s.config).1 = Except.error e2 →
      (PlayerWorker.handle_command env s (PlayerCommand.Initialize cid port)).state.session
        = none) ∧
    (∀ (creds : Credentials) e2, (credsPhase env s.config).1 = Except.ok creds →
      env.connect creds = Except.error e2 →
      (PlayerWorker.handle_command env s (PlayerCommand.Initialize cid port)).state.session
        = none) ∧
    (∀ (creds : Credentials), (credsPhase env s.config).1 = Except.ok creds →
      env.connect creds = Except.ok () →
      (PlayerWorker.handle_command env s (PlayerCommand.Initialize cid port)).state.session
        = some ()) ∧
    (∀ (env₂ : InitEnv) (creds : Credentials),
      s.config.cache_path = none →
      env₂.oauth KEYMASTER_CLIENT_ID KEYMASTER_REDIRECT_PORT KEYMASTER_REDIRECT_PATH
        = Except.ok creds →
      env₂.connect creds = Except.ok () →
      env₂.backendFind s.config.audio_backend = true →
      env₂.mixerFind = true →
      (PlayerWorker.handle_command env₂
          (PlayerWorker.handle_command env s (PlayerCommand.Initialize cid port)).state
          (PlayerCommand.Initialize cid port)).events = [PlayerEvent.Initialized]) := by
  have hstate : (PlayerWorker.handle_command env s (PlayerCommand.Initialize cid port)).state
      = (PlayerWorker.initWorker env s cid port).1 := by
    simp [PlayerWorker.handle_command, hf]
  have hpres := initWorker_error_preserves env s cid port e hf
  refine ⟨?_, ?_, ?_, ?_, ?_, ?_, ?_⟩
  · simp [PlayerWorker.handle_command, hf]
  · simp [PlayerWorker.handle_command, hf]
  · rw [hstate, hpres.1, hp]
  · intro e2 hq0
    rcases hq : credsPhase env s.config with ⟨r, calls⟩
    rw [hq] at hq0
    dsimp only at hq0
    subst hq0
    simp [PlayerWorker.handle_command, PlayerWorker.initWorker, hq, hs]
  · intro creds e2 hq0 hc
    rcases hq : credsPhase env s.config with ⟨r, calls⟩
    rw [hq] at hq0
    dsimp only at hq0
    subst hq0
    simp [PlayerWorker.handle_command, PlayerWorker.initWorker, hq, hc, hs]
  · intro creds hq0 hc
    rcases hq : credsPhase env s.config with ⟨r, calls⟩
    rw [hq] at hq0
    dsimp only at hq0
    subst hq0
    cases hb : env.backendFind s.config.audio_backend with
    | false =>
      simp [PlayerWorker.handle_command, PlayerWorker.initWorker,
        PlayerWorker.create_player, hq, hc, hb]
    | true =>
      cases hm : env.mixerFind with
      | false =>
        simp [PlayerWorker.handle_command, PlayerWorker.initWorker,
          PlayerWorker.create_player, hq, hc, hb, hm]
      | true =>
        simp [PlayerWorker.initWorker, PlayerWorker.create_player, hq, hc, hb, hm] at hf
  · intro env₂ creds h0 h1 h2 h3 h4
    have h0' : (PlayerWorker.initWorker env s cid port).1.config.cache_path = none := by
      rw [hpres.2]
      exact h0
    have h3' : env₂.backendFind
        (PlayerWorker.initWorker env s cid port).1.config.audio_backend = true := by
      rw [hpres.2]
      exact h3
    have hok := initWorker_allOk env₂ (PlayerWorker.initWorker env s cid port).1 cid port
      creds h0' h1 h2 h3' h4
    rw [hstate]
    simp [PlayerWorker.handle_command, hok]

/-- Witness for C2 (amended): a failed OAuth on a fresh worker leaves the
session handle `None` and is retried successfully in an all-succeeding
environment. -/
theorem init_failure_single_event_player_none_witness :
    (PlayerWorker.handle_command env0 s0 (PlayerCommand.Initialize "c" 1)).events
      = [PlayerEvent.InitializationFailed "no oauth"] ∧
    (PlayerWorker.handle_command env0 s0
        (PlayerCommand.Initialize "c" 1)).state.session = none ∧
    (PlayerWorker.handle_command envAllOk
        (PlayerWorker.handle_command env0 s0 (PlayerCommand.Initialize "c" 1)).state
        (PlayerCommand.Initialize "c" 1)).events = [PlayerEvent.Initialized] := by
  have h := init_failure_single_event_player_none env0 s0 "c" 1 "no oauth" rfl rfl (by decide)
  exact ⟨h.1, h.2.2.2.1 "no oauth" (by decide),
    h.2.2.2.2.2.2 envAllOk ⟨"token2"⟩ rfl rfl rfl rfl rfl⟩
